import Mathlib

/-!
# Credit Approval System — verification of the decision engine

Shallow embedding of the loan decision engine of the credit-approval
repository (`loans/services.py`, `loans/models.py`, `loans/serializers.py`).

Numeric values (currency amounts, rates, installments) are modelled as
rationals (`ℚ`); Python's `round(x, 2)` built-in (round-half-to-even) is
modelled by `round2`, and Python's truncating `int()` conversion by `pyInt`.
Dates are modelled as year/month/day triples ordered lexicographically,
matching `datetime.date` comparison.
-/

namespace CreditApproval

/-- Python's `round` to the nearest integer: round half to even
(banker's rounding), as performed by the built-in `round(x)`. -/
def roundHalfEven (q : ℚ) : ℤ :=
  if q - ⌊q⌋ < 1/2 then ⌊q⌋
  else if q - ⌊q⌋ > 1/2 then ⌊q⌋ + 1
  else if ⌊q⌋ % 2 = 0 then ⌊q⌋ else ⌊q⌋ + 1

/-- Python's `round(x, 2)`: round to two decimal places, half to even. -/
def round2 (q : ℚ) : ℚ := (roundHalfEven (q * 100) : ℚ) / 100

/-- Python's `int()` applied to a number: truncation toward zero. -/
def pyInt (q : ℚ) : ℤ := if q < 0 then -⌊-q⌋ else ⌊q⌋

/-- A calendar date as Python's `datetime.date`: compared
lexicographically by (year, month, day). -/
structure PyDate where
  year : ℤ
  month : ℤ
  day : ℤ
deriving DecidableEq, Repr

/-- `datetime.date` comparison `a <= b` (lexicographic). -/
def PyDate.le (a b : PyDate) : Bool :=
  a.year < b.year ∨ (a.year = b.year ∧
    (a.month < b.month ∨ (a.month = b.month ∧ a.day ≤ b.day)))

/-- `Customer` model (`loans/models.py`). -/
structure Customer where
  customer_id : ℕ
  first_name : String
  last_name : String
  age : Option ℕ
  phone_number : ℤ
  monthly_salary : ℚ
  approved_limit : ℚ
  current_debt : ℚ
deriving DecidableEq, Repr

/-- `Loan` model (`loans/models.py`). -/
structure Loan where
  loan_amount : ℚ
  tenure : ℕ
  interest_rate : ℚ
  monthly_repayment : ℚ
  emis_paid_on_time : ℕ
  start_date : PyDate
  end_date : PyDate
deriving DecidableEq, Repr

/-- The exact (pre-rounding) compound-interest EMI expression of
`calculate_monthly_installment` for a nonzero annual rate:
`P·R·(1+R)^N / ((1+R)^N − 1)` with `R = annual_rate/12/100`. -/
def emi_exact (principal annual_rate : ℚ) (tenure_months : ℕ) : ℚ :=
  (principal * (annual_rate / 12 / 100) *
      (1 + annual_rate / 12 / 100) ^ tenure_months) /
    ((1 + annual_rate / 12 / 100) ^ tenure_months - 1)

/-- `calculate_monthly_installment` (`loans/services.py`): zero-rate branch
returns `principal / tenure_months` (unrounded); otherwise the compound
interest EMI rounded to 2 decimal places by Python's `round`. -/
def calculate_monthly_installment (principal annual_rate : ℚ)
    (tenure_months : ℕ) : ℚ :=
  if annual_rate = 0 then principal / (tenure_months : ℚ)
  else round2 (emi_exact principal annual_rate tenure_months)

/-- Fallible embedding of `calculate_monthly_installment`, recording the
Python runtime errors: division by zero (`ZeroDivisionError`) when the
divisor of either branch is zero. `none` means the call raises. -/
def calculate_monthly_installment_checked (principal annual_rate : ℚ)
    (tenure_months : ℕ) : Option ℚ :=
  if annual_rate = 0 then
    if (tenure_months : ℚ) = 0 then none
    else some (principal / (tenure_months : ℚ))
  else
    if (1 + annual_rate / 12 / 100) ^ tenure_months - 1 = 0 then none
    else some (round2 (emi_exact principal annual_rate tenure_months))

example : calculate_monthly_installment 120000 0 12 = 10000 := by
  norm_num [calculate_monthly_installment]

example : calculate_monthly_installment (1/16) 1200 1 = 12/100 := by
  norm_num [calculate_monthly_installment, emi_exact, round2, roundHalfEven]

/-- The on-time-ratio component of `calculate_credit_score` (max 35 points;
flat 25 when there is no EMI history). -/
def score_on_time (all_loans : List Loan) : ℤ :=
  if ((all_loans.map fun l => (l.tenure : ℚ)).sum) > 0 then
    pyInt (((all_loans.map fun l => (l.emis_paid_on_time : ℚ)).sum /
      (all_loans.map fun l => (l.tenure : ℚ)).sum) * 35)
  else 25

/-- The number-of-loans component of `calculate_credit_score` (max 20). -/
def score_num_loans (all_loans : List Loan) : ℤ :=
  if all_loans.length ≥ 5 then 20
  else if all_loans.length ≥ 3 then 15
  else if all_loans.length ≥ 1 then 10
  else 0

/-- The current-year-activity component of `calculate_credit_score`
(max 20; fewer loans started this calendar year scores higher). -/
def score_current_year (all_loans : List Loan) (today : PyDate) : ℤ :=
  if (all_loans.filter fun l => l.start_date.year = today.year).length = 0 then 20
  else if (all_loans.filter fun l => l.start_date.year = today.year).length ≤ 2 then 15
  else if (all_loans.filter fun l => l.start_date.year = today.year).length ≤ 4 then 10
  else 5

/-- The loan-volume component of `calculate_credit_score` (max 25;
flat 15 when the approved limit is 0). -/
def score_volume (customer : Customer) (all_loans : List Loan) : ℤ :=
  if customer.approved_limit > 0 then
    if ((all_loans.map fun l => l.loan_amount).sum / customer.approved_limit) ≤ 3/10 then 25
    else if ((all_loans.map fun l => l.loan_amount).sum / customer.approved_limit) ≤ 5/10 then 20
    else if ((all_loans.map fun l => l.loan_amount).sum / customer.approved_limit) ≤ 7/10 then 15
    else if ((all_loans.map fun l => l.loan_amount).sum / customer.approved_limit) ≤ 1 then 10
    else 5
  else 15

/-- The accumulated component sum of `calculate_credit_score` before the
final clamp to [0, 100]. -/
def credit_score_components (customer : Customer) (all_loans : List Loan)
    (today : PyDate) : ℤ :=
  score_on_time all_loans + score_num_loans all_loans +
    score_current_year all_loans today + score_volume customer all_loans

/-- Sum of the principals of the customer's active loans
(`end_date >= today`). -/
def current_loan_sum (loans : List Loan) (today : PyDate) : ℚ :=
  ((loans.filter fun l => PyDate.le today l.end_date).map
    fun l => l.loan_amount).sum

/-- `calculate_credit_score` (`loans/services.py`): 50 for an empty loan
history; 0 when the active-loan principal sum exceeds the approved limit;
otherwise the four-component sum clamped to [0, 100]. `loans` is the
customer's full loan history, `today` the reference date. -/
def calculate_credit_score (customer : Customer) (loans : List Loan)
    (today : PyDate) : ℤ :=
  if loans.isEmpty then 50
  else if current_loan_sum loans today > customer.approved_limit then 0
  else max 0 (min 100 (credit_score_components customer loans today))

/-- Sum of the EMIs (`monthly_repayment`) of the customer's active loans
(`end_date >= today`), as queried by `check_loan_eligibility`. -/
def current_total_emi (loans : List Loan) (today : PyDate) : ℚ :=
  ((loans.filter fun l => PyDate.le today l.end_date).map
    fun l => l.monthly_repayment).sum

/-- Result dictionary of `check_loan_eligibility`. -/
structure EligibilityResult where
  customer_id : ℕ
  approval : Bool
  interest_rate : ℚ
  corrected_interest_rate : ℚ
  tenure : ℕ
  monthly_installment : ℚ
  message : String
deriving DecidableEq, Repr

/-- `check_loan_eligibility` (`loans/services.py`): affordability gate
(total EMIs strictly above 50% of salary rejects), then the credit-score
bands with rate correction at 12% / 16%. -/
def check_loan_eligibility (customer : Customer) (loans : List Loan)
    (today : PyDate) (loan_amount interest_rate : ℚ) (tenure : ℕ) :
    EligibilityResult :=
  if current_total_emi loans today +
      calculate_monthly_installment loan_amount interest_rate tenure >
      (1/2) * customer.monthly_salary then
    ⟨customer.customer_id, false, interest_rate, interest_rate, tenure,
      calculate_monthly_installment loan_amount interest_rate tenure,
      "Total EMIs would exceed 50% of monthly salary"⟩
  else if calculate_credit_score customer loans today > 50 then
    ⟨customer.customer_id, true, interest_rate, interest_rate, tenure,
      calculate_monthly_installment loan_amount interest_rate tenure,
      "Loan approved"⟩
  else if 30 < calculate_credit_score customer loans today ∧
      calculate_credit_score customer loans today ≤ 50 then
    if interest_rate > 12 then
      ⟨customer.customer_id, true, interest_rate, interest_rate, tenure,
        calculate_monthly_installment loan_amount interest_rate tenure,
        "Loan approved"⟩
    else
      ⟨customer.customer_id, true, interest_rate, 12, tenure,
        calculate_monthly_installment loan_amount 12 tenure,
        "Loan approved with corrected interest rate"⟩
  else if 10 < calculate_credit_score customer loans today ∧
      calculate_credit_score customer loans today ≤ 30 then
    if interest_rate > 16 then
      ⟨customer.customer_id, true, interest_rate, interest_rate, tenure,
        calculate_monthly_installment loan_amount interest_rate tenure,
        "Loan approved"⟩
    else
      ⟨customer.customer_id, true, interest_rate, 16, tenure,
        calculate_monthly_installment loan_amount 16 tenure,
        "Loan approved with corrected interest rate"⟩
  else
    ⟨customer.customer_id, false, interest_rate, interest_rate, tenure,
      calculate_monthly_installment loan_amount interest_rate tenure,
      "Loan not approved due to low credit score"⟩

/-- `dateutil.relativedelta(months=n)` added to a date: advance the month
by `n`, carrying into the year, and clamp the day to the target month's
length. -/
def isLeapYear (y : ℤ) : Bool := (y % 4 = 0 ∧ y % 100 ≠ 0) ∨ y % 400 = 0

/-- Number of days in month `m` of year `y` (Gregorian calendar). -/
def daysInMonth (y m : ℤ) : ℤ :=
  if m = 2 then (if isLeapYear y then 29 else 28)
  else if m = 4 ∨ m = 6 ∨ m = 9 ∨ m = 11 then 30
  else 31

/-- `today + relativedelta(months=n)` for a valid date (month in 1..12). -/
def addMonths (d : PyDate) (n : ℕ) : PyDate :=
  { year := d.year + ((d.month - 1 + n).toNat / 12 : ℕ),
    month := ((d.month - 1 + n).toNat % 12 : ℕ) + 1,
    day := min d.day (daysInMonth (d.year + ((d.month - 1 + n).toNat / 12 : ℕ))
      (((d.month - 1 + n).toNat % 12 : ℕ) + 1)) }

/-- Result dictionary of `create_loan`. -/
structure CreateLoanResult where
  loan_id : Option ℕ
  customer_id : ℕ
  loan_approved : Bool
  message : String
  monthly_installment : ℚ
deriving DecidableEq, Repr

/-- `create_loan` (`loans/services.py`): checks eligibility; on rejection
returns a null loan id and performs no writes; on approval persists the
new loan record (start date `today`, end date `today + tenure` months,
corrected rate, final installment, 0 EMIs paid) and increments the
customer's `current_debt` by the requested amount. The returned triple is
(response, customer after, loan table after); `new_loan_id` is the id the
storage layer assigns to the created row. -/
def create_loan (customer : Customer) (loans : List Loan) (today : PyDate)
    (loan_amount interest_rate : ℚ) (tenure : ℕ) (new_loan_id : ℕ) :
    CreateLoanResult × Customer × List Loan :=
  if (check_loan_eligibility customer loans today loan_amount interest_rate
      tenure).approval = false then
    (⟨none, customer.customer_id, false,
        (check_loan_eligibility customer loans today loan_amount interest_rate
          tenure).message,
        (check_loan_eligibility customer loans today loan_amount interest_rate
          tenure).monthly_installment⟩,
      customer, loans)
  else
    (⟨some new_loan_id, customer.customer_id, true,
        (check_loan_eligibility customer loans today loan_amount interest_rate
          tenure).message,
        (check_loan_eligibility customer loans today loan_amount interest_rate
          tenure).monthly_installment⟩,
      { customer with current_debt := customer.current_debt + loan_amount },
      loans ++ [{ loan_amount := loan_amount, tenure := tenure,
                  interest_rate := (check_loan_eligibility customer loans today
                    loan_amount interest_rate tenure).corrected_interest_rate,
                  monthly_repayment := (check_loan_eligibility customer loans
                    today loan_amount interest_rate tenure).monthly_installment,
                  emis_paid_on_time := 0, start_date := today,
                  end_date := addMonths today tenure }])

/-- `CustomerRegistrationSerializer.create` (`loans/serializers.py`):
builds a customer with `approved_limit = round(36 * monthly_income /
100000) * 100000` (nearest lakh, Python `round`) and zero debt.
`new_id` is the id the storage layer assigns. -/
def CustomerRegistrationSerializer_create (new_id : ℕ)
    (first_name last_name : String) (age : ℕ) (monthly_income : ℕ)
    (phone_number : ℤ) : Customer :=
  { customer_id := new_id, first_name := first_name, last_name := last_name,
    age := some age, phone_number := phone_number,
    monthly_salary := (monthly_income : ℚ),
    approved_limit :=
      ((roundHalfEven ((36 * monthly_income : ℚ) / 100000) * 100000 : ℤ) : ℚ),
    current_debt := 0 }

/-- The spec's claimed rounding policy, written from the spec's words:
round to 2 decimal places with standard half-up rounding (for the
nonnegative values at hand, `floor(100·q + 1/2) / 100`). Used only to
compare the spec's claim against the code's rounding. -/
def round2_half_up (q : ℚ) : ℚ := (⌊q * 100 + 1/2⌋ : ℚ) / 100

/-- Reference date used for concrete evaluations. -/
def d2025 : PyDate := ⟨2025, 10, 12⟩

/-- A customer whose active loan principal exceeds the approved limit. -/
def overLimitCustomer : Customer :=
  ⟨7, "A", "B", some 30, 99, 100000, 1000, 0⟩

/-- An active loan of principal 5000 (over `overLimitCustomer`'s limit). -/
def overLimitLoan : Loan :=
  ⟨5000, 12, 10, 450, 12, ⟨2024, 1, 1⟩, ⟨2030, 1, 1⟩⟩

/-- A customer with no loan history and salary 100000. -/
def freshCustomer : Customer :=
  ⟨1, "C", "D", some 30, 98, 100000, 1800000, 0⟩

/-- A customer with salary 1000: a new EMI of 1000 trips the 50% gate. -/
def poorCustomer : Customer :=
  ⟨2, "E", "F", some 40, 97, 1000, 1800000, 0⟩

/-- A customer with salary 2000: a new EMI of 1000 sits exactly at the
50% boundary. -/
def borderCustomer : Customer :=
  ⟨3, "G", "H", some 40, 96, 2000, 1800000, 0⟩

/-- A customer with approved limit 10000 and small loans. -/
def cappedCustomer : Customer :=
  ⟨4, "I", "J", some 35, 95, 0, 10000, 0⟩

/-- A loan whose `emis_paid_on_time` (100) exceeds its tenure (1). -/
def overpaidLoan : Loan :=
  ⟨100, 1, 10, 10, 100, ⟨2020, 1, 1⟩, ⟨2030, 1, 1⟩⟩

/-- A loan with consistent history: 6 of 10 EMIs paid on time. -/
def normalLoan : Loan :=
  ⟨100, 10, 10, 10, 6, ⟨2020, 1, 1⟩, ⟨2030, 1, 1⟩⟩

/-! ## Helper lemmas -/

theorem roundHalfEven_abs_le (q : ℚ) : |(roundHalfEven q : ℚ) - q| ≤ 1/2 := by
  have h1 := Int.floor_le q
  have h2 := Int.lt_floor_add_one q
  unfold roundHalfEven
  split_ifs with ha hb hc <;> rw [abs_le] <;> push_cast <;>
    constructor <;> linarith

theorem roundHalfEven_tie_even (q : ℚ)
    (h : |(roundHalfEven q : ℚ) - q| = 1/2) : roundHalfEven q % 2 = 0 := by
  have h1 := Int.floor_le q
  unfold roundHalfEven at h ⊢
  split_ifs at h ⊢ with ha hb hc
  · exfalso
    rw [abs_sub_comm, abs_of_nonneg (by linarith)] at h
    linarith
  · exfalso
    have hq : (⌊q⌋ : ℚ) + 1 - q ≥ 0 := by
      have := Int.lt_floor_add_one q
      linarith
    rw [abs_of_nonneg (by push_cast at hq ⊢; linarith)] at h
    push_cast at h
    linarith
  · exact hc
  · omega

theorem round2_lower (q : ℚ) : q - 1/200 ≤ round2 q := by
  have h := (abs_le.mp (roundHalfEven_abs_le (q * 100))).1
  unfold round2
  linarith

theorem round2_abs_le (q : ℚ) : |round2 q - q| ≤ 1/200 := by
  have h := roundHalfEven_abs_le (q * 100)
  unfold round2
  rw [abs_le] at h ⊢
  constructor <;> [linarith [h.1]; linarith [h.2]]

theorem one_add_pow_sub_one_le (x : ℚ) (hx : 0 ≤ x) :
    ∀ n : ℕ, (1 + x) ^ n - 1 ≤ n * x * (1 + x) ^ n := by
  intro n
  induction n with
  | zero => simp
  | succ n ih =>
      have hpow : (0:ℚ) ≤ (1 + x) ^ n := by positivity
      have hpow1 : (1:ℚ) ≤ (1 + x) ^ n := one_le_pow₀ (by linarith)
      push_cast
      rw [pow_succ]
      nlinarith [mul_nonneg (mul_nonneg (Nat.cast_nonneg n : (0:ℚ) ≤ n) hx) hpow,
        mul_nonneg hx hpow]

/-! ## Claims -/

/-- C1: for every customer and fixed reference date, the credit score is
50 on an empty loan history; with a non-empty history it is 0 whenever
the active-loan principal sum exceeds the approved limit, regardless of
the other components; and it always lies in [0, 100]. -/
theorem credit_score_empty_veto_range (c : Customer) (loans : List Loan)
    (today : PyDate) :
    (loans = [] → calculate_credit_score c loans today = 50) ∧
    (loans ≠ [] → current_loan_sum loans today > c.approved_limit →
      calculate_credit_score c loans today = 0) ∧
    0 ≤ calculate_credit_score c loans today ∧
    calculate_credit_score c loans today ≤ 100 := by
  refine ⟨fun h => by simp [calculate_credit_score, h], fun h hgt => ?_, ?_, ?_⟩
  · rw [calculate_credit_score, if_neg (by simpa using h), if_pos hgt]
  · unfold calculate_credit_score
    split_ifs <;> simp [le_max_iff]
  · unfold calculate_credit_score
    split_ifs <;> norm_num

/-- Witness for C1 at concrete inputs: empty history scores 50; an active
5000 loan against a 1000 limit scores 0; both are within [0, 100]. -/
theorem credit_score_empty_veto_range_witness :
    calculate_credit_score overLimitCustomer [] d2025 = 50 ∧
    calculate_credit_score overLimitCustomer [overLimitLoan] d2025 = 0 ∧
    0 ≤ calculate_credit_score overLimitCustomer [overLimitLoan] d2025 := by
  refine ⟨(credit_score_empty_veto_range overLimitCustomer [] d2025).1 rfl,
    (credit_score_empty_veto_range overLimitCustomer [overLimitLoan] d2025).2.1
      (by simp) ?_,
    ((credit_score_empty_veto_range overLimitCustomer [overLimitLoan]
      d2025).2.2).1⟩
  norm_num [current_loan_sum, overLimitCustomer, overLimitLoan, PyDate.le,
    d2025]

/-- C2: when the affordability gate passes, the score bands decide as
follows. Score > 50: approve at the requested rate with the installment
unchanged. 30 < score ≤ 50: approve, keeping the requested rate when it
is > 12 and otherwise forcing 12.0 and recomputing the installment at
that rate. 10 < score ≤ 30: the same with threshold 16 and forced rate
16.0. Score ≤ 10: reject with message "Loan not approved due to low
credit score", the requested rate and the original installment. All
band boundaries are strict as written. -/
theorem eligibility_score_bands (c : Customer) (loans : List Loan)
    (today : PyDate) (amount rate : ℚ) (tenure : ℕ)
    (hgate : current_total_emi loans today +
      calculate_monthly_installment amount rate tenure ≤
      (1/2) * c.monthly_salary) :
    (calculate_credit_score c loans today > 50 →
      check_loan_eligibility c loans today amount rate tenure =
        ⟨c.customer_id, true, rate, rate, tenure,
          calculate_monthly_installment amount rate tenure,
          "Loan approved"⟩) ∧
    (30 < calculate_credit_score c loans today ∧
        calculate_credit_score c loans today ≤ 50 →
      (rate > 12 →
        check_loan_eligibility c loans today amount rate tenure =
          ⟨c.customer_id, true, rate, rate, tenure,
            calculate_monthly_installment amount rate tenure,
            "Loan approved"⟩) ∧
      (¬ rate > 12 →
        check_loan_eligibility c loans today amount rate tenure =
          ⟨c.customer_id, true, rate, 12, tenure,
            calculate_monthly_installment amount 12 tenure,
            "Loan approved with corrected interest rate"⟩)) ∧
    (10 < calculate_credit_score c loans today ∧
        calculate_credit_score c loans today ≤ 30 →
      (rate > 16 →
        check_loan_eligibility c loans today amount rate tenure =
          ⟨c.customer_id, true, rate, rate, tenure,
            calculate_monthly_installment amount rate tenure,
            "Loan approved"⟩) ∧
      (¬ rate > 16 →
        check_loan_eligibility c loans today amount rate tenure =
          ⟨c.customer_id, true, rate, 16, tenure,
            calculate_monthly_installment amount 16 tenure,
            "Loan approved with corrected interest rate"⟩)) ∧
    (calculate_credit_score c loans today ≤ 10 →
      check_loan_eligibility c loans today amount rate tenure =
        ⟨c.customer_id, false, rate, rate, tenure,
          calculate_monthly_installment amount rate tenure,
          "Loan not approved due to low credit score"⟩) := by
  have hng : ¬ (current_total_emi loans today +
      calculate_monthly_installment amount rate tenure >
      (1/2) * c.monthly_salary) := not_lt.mpr hgate
  unfold check_loan_eligibility
  rw [if_neg hng]
  refine ⟨fun h => by rw [if_pos h], fun h => ?_, fun h => ?_, fun h => ?_⟩
  · rw [if_neg (by omega), if_pos h]
    exact ⟨fun hr => by rw [if_pos hr], fun hr => by rw [if_neg hr]⟩
  · rw [if_neg (by omega), if_neg (by omega), if_pos h]
    exact ⟨fun hr => by rw [if_pos hr], fun hr => by rw [if_neg hr]⟩
  · rw [if_neg (by omega), if_neg (by omega), if_neg (by omega)]

/-- Witness for C2: a fresh customer (score 50, so the 30–50 band) with
salary 100000 requesting 12000 at 0% over 12 months passes the gate and
is approved at the corrected rate 12.0 with a recomputed installment. -/
theorem eligibility_score_bands_witness :
    current_total_emi [] d2025 +
      calculate_monthly_installment 12000 0 12 ≤
      (1/2) * freshCustomer.monthly_salary ∧
    30 < calculate_credit_score freshCustomer [] d2025 ∧
    calculate_credit_score freshCustomer [] d2025 ≤ 50 ∧
    check_loan_eligibility freshCustomer [] d2025 12000 0 12 =
      ⟨1, true, 0, 12, 12, calculate_monthly_installment 12000 12 12,
        "Loan approved with corrected interest rate"⟩ := by
  have hgate : current_total_emi [] d2025 +
      calculate_monthly_installment 12000 0 12 ≤
      (1/2) * freshCustomer.monthly_salary := by
    norm_num [current_total_emi, calculate_monthly_installment, freshCustomer]
  have hscore : calculate_credit_score freshCustomer [] d2025 = 50 := by
    simp [calculate_credit_score]
  refine ⟨hgate, by omega, by omega, ?_⟩
  have := ((eligibility_score_bands freshCustomer [] d2025 12000 0 12
    hgate).2.1 (by omega)).2 (by norm_num)
  simpa [freshCustomer] using this

/-- C3: the affordability gate compares active-loan EMIs plus the EMI at
the requested (uncorrected) rate against 0.5 × salary with strict `>`.
When it fires, the decision rejects immediately — before any score-band
correction — with the uncorrected installment, the requested rate and
the gate message; a total exactly equal to 50% of salary is never
rejected by the gate. -/
theorem eligibility_affordability_gate (c : Customer) (loans : List Loan)
    (today : PyDate) (amount rate : ℚ) (tenure : ℕ) :
    (current_total_emi loans today +
        calculate_monthly_installment amount rate tenure >
        (1/2) * c.monthly_salary →
      check_loan_eligibility c loans today amount rate tenure =
        ⟨c.customer_id, false, rate, rate, tenure,
          calculate_monthly_installment amount rate tenure,
          "Total EMIs would exceed 50% of monthly salary"⟩) ∧
    (current_total_emi loans today +
        calculate_monthly_installment amount rate tenure =
        (1/2) * c.monthly_salary →
      (check_loan_eligibility c loans today amount rate tenure).message ≠
        "Total EMIs would exceed 50% of monthly salary") := by
  constructor
  · intro h
    rw [check_loan_eligibility, if_pos h]
  · intro h
    have hng : ¬ (current_total_emi loans today +
        calculate_monthly_installment amount rate tenure >
        (1/2) * c.monthly_salary) := by rw [h]; exact lt_irrefl _
    unfold check_loan_eligibility
    rw [if_neg hng]
    split_ifs <;> simp

/-- Witness for C3: with salary 1000 a new EMI of 1000 (0 current EMIs)
exceeds 50% of salary and the gate rejects; with salary 2000 the same
total sits exactly at 50% and the gate does not reject. -/
theorem eligibility_affordability_gate_witness :
    check_loan_eligibility poorCustomer [] d2025 12000 0 12 =
      ⟨2, false, 0, 0, 12, calculate_monthly_installment 12000 0 12,
        "Total EMIs would exceed 50% of monthly salary"⟩ ∧
    (check_loan_eligibility borderCustomer [] d2025 12000 0 12).message ≠
      "Total EMIs would exceed 50% of monthly salary" := by
  constructor
  · have := (eligibility_affordability_gate poorCustomer [] d2025
      12000 0 12).1 (by
        norm_num [current_total_emi, calculate_monthly_installment,
          poorCustomer])
    simpa [poorCustomer] using this
  · exact (eligibility_affordability_gate borderCustomer [] d2025
      12000 0 12).2 (by
        norm_num [current_total_emi, calculate_monthly_installment,
          borderCustomer])

/-- C4: on a rejected decision, `create_loan` returns a null loan id,
`loan_approved = false` and the decision's message and installment; on an
approved decision it persists a new loan with start date `today`, end
date `today + tenure` months, the decision's corrected rate and final
installment, 0 EMIs paid on time, increments the customer's
`current_debt` by exactly the requested amount and returns the new
loan's id. -/
theorem create_loan_spec (c : Customer) (loans : List Loan) (today : PyDate)
    (amount rate : ℚ) (tenure : ℕ) (new_id : ℕ) :
    ((check_loan_eligibility c loans today amount rate tenure).approval =
        false →
      create_loan c loans today amount rate tenure new_id =
        (⟨none, c.customer_id, false,
          (check_loan_eligibility c loans today amount rate tenure).message,
          (check_loan_eligibility c loans today amount rate
            tenure).monthly_installment⟩, c, loans)) ∧
    ((check_loan_eligibility c loans today amount rate tenure).approval =
        true →
      create_loan c loans today amount rate tenure new_id =
        (⟨some new_id, c.customer_id, true,
          (check_loan_eligibility c loans today amount rate tenure).message,
          (check_loan_eligibility c loans today amount rate
            tenure).monthly_installment⟩,
         { c with current_debt := c.current_debt + amount },
         loans ++ [{ loan_amount := amount, tenure := tenure,
                     interest_rate := (check_loan_eligibility c loans today
                       amount rate tenure).corrected_interest_rate,
                     monthly_repayment := (check_loan_eligibility c loans
                       today amount rate tenure).monthly_installment,
                     emis_paid_on_time := 0, start_date := today,
                     end_date := addMonths today tenure }])) := by
  constructor
  · intro h
    rw [create_loan, if_pos h]
  · intro h
    rw [create_loan, if_neg (by simp [h])]

/-- Witness for C4 at concrete inputs: a gate-rejected request changes
nothing and returns a null id; a fresh customer's approved request
appends the expected loan record and bumps the debt. -/
theorem create_loan_spec_witness :
    create_loan poorCustomer [] d2025 12000 0 12 5 =
      (⟨none, 2, false,
        (check_loan_eligibility poorCustomer [] d2025 12000 0 12).message,
        (check_loan_eligibility poorCustomer [] d2025 12000 0
          12).monthly_installment⟩, poorCustomer, []) ∧
    create_loan freshCustomer [] d2025 12000 0 12 5 =
      (⟨some 5, 1, true,
        (check_loan_eligibility freshCustomer [] d2025 12000 0 12).message,
        (check_loan_eligibility freshCustomer [] d2025 12000 0
          12).monthly_installment⟩,
       { freshCustomer with current_debt := freshCustomer.current_debt +
          12000 },
       [{ loan_amount := 12000, tenure := 12,
          interest_rate := (check_loan_eligibility freshCustomer [] d2025
            12000 0 12).corrected_interest_rate,
          monthly_repayment := (check_loan_eligibility freshCustomer []
            d2025 12000 0 12).monthly_installment,
          emis_paid_on_time := 0, start_date := d2025,
          end_date := addMonths d2025 12 }]) := by
  have hrej : (check_loan_eligibility poorCustomer [] d2025 12000 0
      12).approval = false := by
    have := (eligibility_affordability_gate poorCustomer [] d2025
      12000 0 12).1 (by
        norm_num [current_total_emi, calculate_monthly_installment,
          poorCustomer])
    rw [this]
  have happ : (check_loan_eligibility freshCustomer [] d2025 12000 0
      12).approval = true := by
    have hgate : current_total_emi [] d2025 +
        calculate_monthly_installment 12000 0 12 ≤
        (1/2) * freshCustomer.monthly_salary := by
      norm_num [current_total_emi, calculate_monthly_installment,
        freshCustomer]
    have hscore : calculate_credit_score freshCustomer [] d2025 = 50 := by
      simp [calculate_credit_score]
    have := ((eligibility_score_bands freshCustomer [] d2025 12000 0 12
      hgate).2.1 (by omega)).2 (by norm_num)
    rw [this]
  constructor
  · have := (create_loan_spec poorCustomer [] d2025 12000 0 12 5).1 hrej
    simpa [poorCustomer] using this
  · have := (create_loan_spec freshCustomer [] d2025 12000 0 12 5).2 happ
    simpa [freshCustomer] using this

/-- C10: whenever the eligibility decision rejects, `create_loan`
performs no state change: the customer record and the loan table are
returned unchanged, no loan id is allocated and the response reports
`loan_approved = false`. -/
theorem create_loan_rejection_frame (c : Customer) (loans : List Loan)
    (today : PyDate) (amount rate : ℚ) (tenure : ℕ) (new_id : ℕ)
    (h : (check_loan_eligibility c loans today amount rate tenure).approval =
      false) :
    (create_loan c loans today amount rate tenure new_id).2.1 = c ∧
    (create_loan c loans today amount rate tenure new_id).2.2 = loans ∧
    (create_loan c loans today amount rate tenure new_id).1.loan_id =
      none ∧
    (create_loan c loans today amount rate tenure new_id).1.loan_approved =
      false := by
  rw [create_loan, if_pos h]
  exact ⟨rfl, rfl, rfl, rfl⟩

/-- Witness for C10: the gate-rejected request of `poorCustomer` leaves
the customer and the loan table untouched. -/
theorem create_loan_rejection_frame_witness :
    (create_loan poorCustomer [] d2025 12000 0 12 5).2.1 = poorCustomer ∧
    (create_loan poorCustomer [] d2025 12000 0 12 5).2.2 = ([] : List Loan) := by
  have hrej : (check_loan_eligibility poorCustomer [] d2025 12000 0
      12).approval = false := by
    have : check_loan_eligibility poorCustomer [] d2025 12000 0 12 =
        ⟨2, false, 0, 0, 12, calculate_monthly_installment 12000 0 12,
          "Total EMIs would exceed 50% of monthly salary"⟩ := by
      rw [check_loan_eligibility, if_pos (by
        norm_num [current_total_emi, calculate_monthly_installment,
          poorCustomer])]
      simp [poorCustomer]
    rw [this]
  have h := create_loan_rejection_frame poorCustomer [] d2025 12000 0 12 5
    hrej
  exact ⟨h.1, h.2.1⟩

/-- C6 counterexample: the zero-rate branch of
`calculate_monthly_installment` returns `principal / tenure` without any
rounding (100/3 is not a 2-decimal value, while half-up rounding would
give 33.33), and the compound branch rounds half to even, not half up:
at principal 1/16, rate 1200%, tenure 1 the exact EMI is 0.125, the code
returns 0.12 while half-up rounding gives 0.13. -/
theorem emi_half_up_rounding_cex :
    calculate_monthly_installment 100 0 3 = 100/3 ∧
    round2_half_up (100/3) = 3333/100 ∧
    (100/3 : ℚ) ≠ 3333/100 ∧
    emi_exact (1/16) 1200 1 = 1/8 ∧
    calculate_monthly_installment (1/16) 1200 1 = 12/100 ∧
    round2_half_up (1/8) = 13/100 := by
  refine ⟨by norm_num [calculate_monthly_installment], ?_, by norm_num,
    by norm_num [emi_exact], ?_, ?_⟩
  · norm_num [round2_half_up]
  · norm_num [calculate_monthly_installment, emi_exact, round2,
      roundHalfEven]
  · norm_num [round2_half_up]

/-- C6 (amended): in the compound-interest branch (rate ≠ 0) the result
is the exact EMI rounded to 2 decimal places with round-half-to-even:
it is an integer multiple of 0.01 within 1/200 of the exact value, and
an exact tie is resolved to an even multiple; the zero-rate branch
returns `principal / tenure` unrounded. -/
theorem emi_rounding_characterization (p r : ℚ) (t : ℕ) :
    (r = 0 → calculate_monthly_installment p r t = p / t) ∧
    (r ≠ 0 → ∃ k : ℤ,
      calculate_monthly_installment p r t = k / 100 ∧
      |calculate_monthly_installment p r t - emi_exact p r t| ≤ 1/200 ∧
      (|calculate_monthly_installment p r t - emi_exact p r t| = 1/200 →
        k % 2 = 0)) := by
  constructor
  · intro h
    rw [calculate_monthly_installment, if_pos h]
  · intro h
    rw [calculate_monthly_installment, if_neg h]
    refine ⟨roundHalfEven (emi_exact p r t * 100), rfl, ?_, ?_⟩
    · have := roundHalfEven_abs_le (emi_exact p r t * 100)
      rw [round2, abs_le] at *
      constructor <;> [linarith [this.1]; linarith [this.2]]
    · intro htie
      apply roundHalfEven_tie_even
      rw [round2] at htie
      rw [show (roundHalfEven (emi_exact p r t * 100) : ℚ) -
          emi_exact p r t * 100 =
          ((roundHalfEven (emi_exact p r t * 100) : ℚ) / 100 -
            emi_exact p r t) * 100 by ring, abs_mul, htie]
      norm_num

/-- Witness for C6 (amended) at concrete inputs: the zero-rate branch at
(100, 0%, 3) returns 100/3 exactly, and the compound branch at
(1/16, 1200%, 1) returns an even multiple of 0.01 at distance exactly
1/200 from the exact EMI. -/
theorem emi_rounding_characterization_witness :
    calculate_monthly_installment 100 0 3 = 100/3 ∧
    (∃ k : ℤ, calculate_monthly_installment (1/16) 1200 1 = k / 100 ∧
      |calculate_monthly_installment (1/16) 1200 1 -
        emi_exact (1/16) 1200 1| ≤ 1/200 ∧
      (|calculate_monthly_installment (1/16) 1200 1 -
        emi_exact (1/16) 1200 1| = 1/200 → k % 2 = 0)) := by
  exact ⟨(emi_rounding_characterization 100 0 3).1 rfl,
    (emi_rounding_characterization (1/16) 1200 1).2 (by norm_num)⟩

/-- C7 counterexample: the EMI calculator performs no precondition
validation: for the negative principal −1 (with rate 0 and tenure 2) it
raises nothing and returns −0.5, where the claim demands an
`InvalidArgument` failure. -/
theorem emi_no_validation_cex :
    calculate_monthly_installment_checked (-1) 0 2 = some (-(1/2)) := by
  norm_num [calculate_monthly_installment_checked]

/-- C7 (amended): the EMI calculator has no validation and its only
failure is division by zero at tenure 0: for every principal (of any
sign), rate ≥ 0 and tenure > 0 it returns a value without raising. -/
theorem emi_checked_total_on_valid (p r : ℚ) (t : ℕ) (hr : 0 ≤ r)
    (ht : 0 < t) :
    calculate_monthly_installment_checked p r t =
      some (calculate_monthly_installment p r t) := by
  rcases eq_or_lt_of_le hr with h0 | hpos
  · rw [calculate_monthly_installment_checked, if_pos h0.symm,
      if_neg (by positivity), calculate_monthly_installment, if_pos h0.symm]
  · have hne : r ≠ 0 := ne_of_gt hpos
    have hgt : (1:ℚ) < (1 + r / 12 / 100) ^ t := by
      have h12 : (0:ℚ) < r / 12 / 100 := by positivity
      exact one_lt_pow₀ (by linarith) (by omega)
    rw [calculate_monthly_installment_checked, if_neg hne,
      if_neg (by linarith), calculate_monthly_installment, if_neg hne]

/-- Witness for C7 (amended): at principal −1, rate 0, tenure 2 the
checked calculator returns a value (no failure). -/
theorem emi_checked_total_on_valid_witness :
    calculate_monthly_installment_checked (-1) 0 2 =
      some (calculate_monthly_installment (-1) 0 2) :=
  emi_checked_total_on_valid (-1) 0 2 (by norm_num) (by norm_num)

/-- C8 counterexample: at principal 1/250 (= 0.004), rate 12%, tenure 1
the exact EMI 0.00404 rounds to 0.00, so the returned installment times
the tenure is 0 < principal: rounding can push total repayment below the
principal, refuting the claim as stated. -/
theorem emi_total_repayment_cex :
    calculate_monthly_installment (1/250) 12 1 = 0 ∧
    ¬ ((1/250 : ℚ) ≤ calculate_monthly_installment (1/250) 12 1 * 1) := by
  have h : calculate_monthly_installment (1/250) 12 1 = 0 := by
    norm_num [calculate_monthly_installment, emi_exact, round2,
      roundHalfEven]
  exact ⟨h, by rw [h]; norm_num⟩

/-- C8 (amended): for principal > 0 and tenure > 0, the result equals
`principal / tenure` exactly when the rate is 0; when the rate is
positive, the exact (pre-rounding) EMI times the tenure is at least the
principal, and the returned (rounded) installment times the tenure is at
least the principal minus the worst-case rounding loss of 0.005 per
installment. -/
theorem emi_total_repayment_bound (p r : ℚ) (t : ℕ) (hp : 0 < p)
    (ht : 0 < t) :
    (r = 0 → calculate_monthly_installment p r t = p / t) ∧
    (0 < r → p ≤ emi_exact p r t * t ∧
      p - t * (1/200) ≤ calculate_monthly_installment p r t * t) := by
  constructor
  · intro h
    rw [calculate_monthly_installment, if_pos h]
  · intro hr
    have hx : (0:ℚ) < r / 12 / 100 := by positivity
    have hD : (0:ℚ) < (1 + r / 12 / 100) ^ t - 1 := by
      have := one_lt_pow₀ (a := 1 + r / 12 / 100) (by linarith)
        (n := t) (by omega)
      linarith
    have key := one_add_pow_sub_one_le (r / 12 / 100) hx.le t
    have h2 : p ≤ emi_exact p r t * t := by
      rw [emi_exact, div_mul_eq_mul_div, le_div_iff₀ hD]
      nlinarith [mul_le_mul_of_nonneg_left key hp.le]
    refine ⟨h2, ?_⟩
    have h1 : emi_exact p r t - 1/200 ≤ calculate_monthly_installment p r t := by
      rw [calculate_monthly_installment, if_neg (ne_of_gt hr)]
      exact round2_lower _
    nlinarith [mul_le_mul_of_nonneg_right h1
      (show (0:ℚ) ≤ t by positivity)]

/-- Witness for C8 (amended): the zero-rate case at (120000, 0%, 12)
gives exactly 10000 = 120000/12, and the positive-rate case at
(100, 12%, 12) satisfies both repayment lower bounds. -/
theorem emi_total_repayment_bound_witness :
    calculate_monthly_installment 120000 0 12 = 120000 / 12 ∧
    ((100:ℚ) ≤ emi_exact 100 12 12 * 12 ∧
      (100:ℚ) - 12 * (1/200) ≤
        calculate_monthly_installment 100 12 12 * 12) := by
  refine ⟨?_, ?_⟩
  · have := (emi_total_repayment_bound 120000 0 12 (by norm_num)
      (by norm_num)).1 rfl
    simpa using this
  · have := (emi_total_repayment_bound 100 12 12 (by norm_num)
      (by norm_num)).2 (by norm_num)
    simpa using this

/-- C9: at registration the stored `approved_limit` is 36 × the monthly
income rounded to the nearest multiple of 100000 (it is a multiple of
100000 and no other multiple is strictly closer to 36 × income), and a
customer registering with monthly income 50000 receives the limit
1800000. -/
theorem registration_limit_nearest_lakh (new_id : ℕ) (fn ln : String)
    (age income : ℕ) (ph : ℤ) :
    (∃ k : ℤ, (CustomerRegistrationSerializer_create new_id fn ln age
      income ph).approved_limit = (k : ℚ) * 100000) ∧
    (∀ m : ℤ, |(CustomerRegistrationSerializer_create new_id fn ln age
        income ph).approved_limit - 36 * (income : ℚ)| ≤
      |(m : ℚ) * 100000 - 36 * (income : ℚ)|) ∧
    (CustomerRegistrationSerializer_create 1 "" "" 30 50000 0).approved_limit
      = 1800000 := by
  refine ⟨⟨roundHalfEven ((36 * income : ℚ) / 100000), by
    simp [CustomerRegistrationSerializer_create]⟩,
    fun m => ?_, by norm_num [CustomerRegistrationSerializer_create,
      roundHalfEven]⟩
  set y : ℚ := (36 * income : ℚ) / 100000 with hydef
  have hy : 36 * (income : ℚ) = y * 100000 := by
    rw [hydef]; field_simp
  have habs := roundHalfEven_abs_le y
  have hlhs : (CustomerRegistrationSerializer_create new_id fn ln age
      income ph).approved_limit = (roundHalfEven y : ℚ) * 100000 := by
    simp [CustomerRegistrationSerializer_create]
  rw [hlhs, hy,
    show (roundHalfEven y : ℚ) * 100000 - y * 100000 =
      ((roundHalfEven y : ℚ) - y) * 100000 from by ring,
    show (m : ℚ) * 100000 - y * 100000 = ((m : ℚ) - y) * 100000 from by
      ring, abs_mul, abs_mul]
  refine mul_le_mul_of_nonneg_right ?_ (abs_nonneg _)
  rcases eq_or_ne m (roundHalfEven y) with rfl | hne
  · exact le_refl _
  · have h1 : (1:ℚ) ≤ |(m : ℚ) - (roundHalfEven y : ℚ)| := by
      have := Int.one_le_abs (sub_ne_zero.mpr hne)
      exact_mod_cast this
    have htri := abs_add ((m : ℚ) - y) (y - (roundHalfEven y : ℚ))
    rw [show (m : ℚ) - y + (y - (roundHalfEven y : ℚ)) =
        (m : ℚ) - (roundHalfEven y : ℚ) from by ring,
      abs_sub_comm y] at htri
    linarith

theorem pyInt_nonneg (q : ℚ) (h : 0 ≤ q) : 0 ≤ pyInt q := by
  rw [pyInt, if_neg (not_lt.mpr h)]
  exact Int.floor_nonneg.mpr h

theorem pyInt_le_of_le (q : ℚ) (n : ℤ) (h : q ≤ n) : pyInt q ≤ n := by
  rw [pyInt]
  split_ifs with hq
  · have h2 : (-n : ℚ) ≤ -q := by linarith
    have h3 := Int.le_floor.mpr (by exact_mod_cast h2)
    omega
  · have h3 := Int.floor_le_floor h
    rw [Int.floor_intCast] at h3
    exact h3

theorem score_on_time_nonneg (loans : List Loan) : 0 ≤ score_on_time loans := by
  rw [score_on_time]
  split_ifs with h
  · refine pyInt_nonneg _ (mul_nonneg (div_nonneg ?_ h.le) (by norm_num))
    exact List.sum_nonneg (fun x hx => by
      obtain ⟨l, _, rfl⟩ := List.mem_map.mp hx
      positivity)
  · norm_num

theorem score_on_time_le_of_consistent (loans : List Loan)
    (hok : ∀ l ∈ loans, l.emis_paid_on_time ≤ l.tenure) :
    score_on_time loans ≤ 35 := by
  rw [score_on_time]
  split_ifs with h
  · refine pyInt_le_of_le _ 35 ?_
    have hsum : (loans.map fun l => (l.emis_paid_on_time : ℚ)).sum ≤
        (loans.map fun l => (l.tenure : ℚ)).sum :=
      List.sum_le_sum (fun l hl => by exact_mod_cast hok l hl)
    have hratio : (loans.map fun l => (l.emis_paid_on_time : ℚ)).sum /
        (loans.map fun l => (l.tenure : ℚ)).sum ≤ 1 :=
      (div_le_one h).mpr hsum
    push_cast
    nlinarith
  · norm_num

theorem score_num_loans_bounds (loans : List Loan) :
    0 ≤ score_num_loans loans ∧ score_num_loans loans ≤ 20 := by
  rw [score_num_loans]
  split_ifs <;> norm_num

theorem score_current_year_bounds (loans : List Loan) (today : PyDate) :
    0 ≤ score_current_year loans today ∧
    score_current_year loans today ≤ 20 := by
  rw [score_current_year]
  split_ifs <;> norm_num

theorem score_volume_bounds (c : Customer) (loans : List Loan) :
    0 ≤ score_volume c loans ∧ score_volume c loans ≤ 25 := by
  rw [score_volume]
  split_ifs <;> norm_num

/-- C5 counterexample: a loan recording 100 on-time EMIs against a
tenure of 1 (nothing in the code constrains `emis_paid_on_time` by the
tenure) makes the on-time component 3500, far above its claimed cap 35;
the component sum is 3555 and the final clamp changes it to 100, so the
clamp is not purely defensive. -/
theorem credit_component_cap_cex :
    score_on_time [overpaidLoan] = 3500 ∧
    credit_score_components cappedCustomer [overpaidLoan] d2025 = 3555 ∧
    calculate_credit_score cappedCustomer [overpaidLoan] d2025 = 100 := by
  have h1 : score_on_time [overpaidLoan] = 3500 := by
    norm_num [score_on_time, overpaidLoan, pyInt]
  have h2 : credit_score_components cappedCustomer [overpaidLoan] d2025 =
      3555 := by
    rw [credit_score_components, h1]
    norm_num [score_num_loans, score_current_year, score_volume,
      overpaidLoan, cappedCustomer, d2025]
  refine ⟨h1, h2, ?_⟩
  rw [calculate_credit_score, if_neg (by simp),
    if_neg (by norm_num [current_loan_sum, overpaidLoan, cappedCustomer,
      d2025, PyDate.le]), h2]
  norm_num

/-- C5 (amended): for a non-empty loan history in which every loan has
`emis_paid_on_time ≤ tenure`, each credit-score component is bounded by
its stated cap (on-time ≤ 35, count ≤ 20, current-year ≤ 20, volume
≤ 25), the component sum lies in [0, 100], and — when the overexposure
veto does not fire — the final clamp returns the component sum
unchanged. -/
theorem credit_components_capped (c : Customer) (loans : List Loan)
    (today : PyDate) (hne : loans ≠ [])
    (hok : ∀ l ∈ loans, l.emis_paid_on_time ≤ l.tenure)
    (hveto : ¬ current_loan_sum loans today > c.approved_limit) :
    score_on_time loans ≤ 35 ∧ score_num_loans loans ≤ 20 ∧
    score_current_year loans today ≤ 20 ∧ score_volume c loans ≤ 25 ∧
    0 ≤ credit_score_components c loans today ∧
    credit_score_components c loans today ≤ 100 ∧
    calculate_credit_score c loans today =
      credit_score_components c loans today := by
  have h1 := score_on_time_le_of_consistent loans hok
  have h1n := score_on_time_nonneg loans
  have h2 := score_num_loans_bounds loans
  have h3 := score_current_year_bounds loans today
  have h4 := score_volume_bounds c loans
  have hlo : 0 ≤ credit_score_components c loans today := by
    rw [credit_score_components]
    linarith [h2.1, h3.1, h4.1]
  have hhi : credit_score_components c loans today ≤ 100 := by
    rw [credit_score_components]
    linarith [h2.2, h3.2, h4.2]
  refine ⟨h1, h2.2, h3.2, h4.2, hlo, hhi, ?_⟩
  rw [calculate_credit_score, if_neg (by simpa using hne), if_neg hveto,
    min_eq_right hhi, max_eq_right hlo]

/-- Witness for C5 (amended) at a concrete consistent history: one loan
with 6 of 10 EMIs on time against a 10000 limit. -/
theorem credit_components_capped_witness :
    score_on_time [normalLoan] ≤ 35 ∧
    calculate_credit_score cappedCustomer [normalLoan] d2025 =
      credit_score_components cappedCustomer [normalLoan] d2025 := by
  have h := credit_components_capped cappedCustomer [normalLoan] d2025
    (by simp)
    (by intro l hl; simp at hl; subst hl; norm_num [normalLoan])
    (by norm_num [current_loan_sum, normalLoan, cappedCustomer, d2025,
      PyDate.le])
  exact ⟨h.1, h.2.2.2.2.2.2⟩

end CreditApproval
